import Mathlib

/-!
Verification of the contact-message store Lambda (`src/app.py`).

The Python handler is embedded shallowly:

* JSON values (the Lambda event, the decoded message payload) become the
  inductive `Json`.
* `json.loads` is an external standard-library collaborator; the handler is
  parameterised by a function `loads : String → Except AppError Json`.
* `uuid.uuid4()` and `int(time.time())` are modelled as explicit parameters
  `uuid : String` and `now : Int` (a fresh invocation receives the freshly
  generated identifier and the wall-clock reading).
* The boto3 DynamoDB client is modelled by `put_item`, reproducing the
  behaviour the repository exercises: client-side parameter validation of
  attribute types (an `S` attribute value must be a string), the
  table-existence check, and the backend rejection of an empty string in a
  key attribute (the table schema in `src/tests/unit/test_handler.py` keys
  on `ID` (hash) and `Email` (range)).
* Python exceptions become the `AppError` sum; the handler's
  `raise RuntimeError(e)` becomes `HandlerError.runtimeError e`; the
  handler's outcome (a returned value or a raised error), the resulting
  store, the log lines and the emitted metric names form `HandlerResult`.
-/

/-- JSON values, as Python represents them after `json.loads`
(dicts are association lists in insertion order). -/
inductive Json where
  | str : String → Json
  | num : Int → Json
  | bool : Bool → Json
  | null : Json
  | arr : List Json → Json
  | obj : List (String × Json) → Json

/-- The Python type name of a JSON value (as `type(v)` would render it). -/
def Json.typeName : Json → String
  | .str _ => "str"
  | .num _ => "int"
  | .bool _ => "bool"
  | .null => "NoneType"
  | .arr _ => "list"
  | .obj _ => "dict"

/-- Errors raised on the way to (and by) the storage client. -/
inductive AppError where
  /-- Python `KeyError k`: subscripting a dict with an absent key. -/
  | keyError : String → AppError
  /-- Python `IndexError`: subscripting an empty list with `[0]`. -/
  | indexError : AppError
  /-- Python `TypeError` (subscripting a non-container, or passing a
  non-string to `json.loads`). -/
  | typeError : String → AppError
  /-- `json.JSONDecodeError`: the payload text is not well-formed JSON. -/
  | parseError : String → AppError
  /-- boto3 client-side parameter validation failure; each entry names the
  offending parameter path (for instance `Item.Name.S`) and carries the
  offending value, whose actual type the message reports against the
  expected type `str`. -/
  | paramValidation : List (String × Json) → AppError
  /-- DynamoDB `ResourceNotFoundException`: the target table does not exist. -/
  | resourceNotFound : String → AppError
  /-- DynamoDB `ValidationException`: the backend rejected the item (an
  empty string in a key attribute). -/
  | validationException : AppError

/-- `str(e)` for each modelled exception: the description carried in the log
entry and wrapped by `RuntimeError(e)`. -/
def AppError.describe : AppError → String
  | .keyError k => "KeyError: " ++ k
  | .indexError => "list index out of range"
  | .typeError m => m
  | .parseError m => m
  | .paramValidation errs =>
      "Parameter validation failed: " ++
        String.intercalate "; "
          (errs.map (fun fe =>
            "Invalid type for parameter " ++ fe.1 ++ ", type: " ++
              fe.2.typeName ++ ", valid types: str"))
  | .resourceNotFound _ =>
      "An error occurred (ResourceNotFoundException) when calling the PutItem operation: Requested resource not found"
  | .validationException =>
      "An error occurred (ValidationException) when calling the PutItem operation: One or more parameter values were invalid: An AttributeValue may not contain an empty string in a key attribute"

/-- Python `d[k]` on a JSON value: dict lookup (first binding wins, as dict
keys are unique) or a `TypeError` on non-dicts. -/
def Json.index : Json → String → Except AppError Json
  | .obj fields, k =>
      match fields.lookup k with
      | some v => .ok v
      | none => .error (.keyError k)
  | j, _ => .error (.typeError (j.typeName ++ " object is not subscriptable"))

/-- Python `l[0]` on a JSON value: first element of a list, `IndexError` on
an empty list, `TypeError` on non-lists. -/
def Json.first : Json → Except AppError Json
  | .arr [] => .error .indexError
  | .arr (x :: _) => .ok x
  | j => .error (.typeError (j.typeName ++ " object is not subscriptable"))

/-- `json.loads` requires its argument to be text; any other value raises a
`TypeError` before parsing is attempted. -/
def Json.asText : Json → Except AppError String
  | .str s => .ok s
  | j => .error (.typeError ("the JSON object must be str, not " ++ j.typeName))

/-- A DynamoDB attribute value as sent by the source:
`{'S': v}` where `v` is whatever the payload held, or `{'N': s}` where `s`
is the string Python's `str(...)` produced. -/
inductive RawAttr where
  | S : Json → RawAttr
  | N : String → RawAttr

/-- A validated DynamoDB attribute value. -/
inductive AttrValue where
  | S : String → AttrValue
  | N : String → AttrValue
deriving DecidableEq, Repr

/-- The item as the source constructs it, attribute name to raw value,
in Python dict insertion order. -/
abbrev RawItem := List (String × RawAttr)

/-- A validated item as stored in the table. -/
abbrev Item := List (String × AttrValue)

/-- Client-side type validation of one attribute value: an `S` value must be
a string; `N` values in this program are always produced by `str(...)`. -/
def RawAttr.validate : RawAttr → Option AttrValue
  | .S (.str s) => some (.S s)
  | .S _ => none
  | .N s => some (.N s)

/-- Validate every attribute of an item, keeping order. -/
def validateItem : List (String × RawAttr) → Option (List (String × AttrValue))
  | [] => some []
  | (k, a) :: rest =>
      match a.validate, validateItem rest with
      | some v, some vs => some ((k, v) :: vs)
      | _, _ => none

/-- The parameter-validation report: each type-invalid attribute, named by
its parameter path, with the offending value. -/
def paramErrors : List (String × RawAttr) → List (String × Json)
  | [] => []
  | (k, a) :: rest =>
      match a.validate with
      | some _ => paramErrors rest
      | none =>
          match a with
          | .S v => ("Item." ++ k ++ ".S", v) :: paramErrors rest
          | .N _ => paramErrors rest

/-- The `TableName` parameter must be present (a missing `TABLE_NAME`
environment variable reaches the client as `None`). -/
def tableNameErrors : Option String → List (String × Json)
  | some _ => []
  | none => [("TableName", Json.null)]

/-- The durable store: the one existing table (the schema of
`src/tests/unit/test_handler.py` keys on `ID` and `Email`) and its rows. -/
structure DynamoDB where
  tableName : String
  rows : List Item
deriving DecidableEq, Repr

/-- Does this attribute violate the backend rule that a key attribute
(`ID` or `Email` under the table schema) may not hold an empty string? -/
def isEmptyKeyAttr : String × AttrValue → Bool
  | (k, .S s) => (k == "ID" || k == "Email") && s == ""
  | _ => false

/-- Models `boto3.client('dynamodb').put_item`: client-side parameter
validation first (attribute types and `TableName` presence), then the
backend checks that the table exists and that no key attribute is an empty
string; on success exactly the one validated item is appended. -/
def put_item (db : DynamoDB) (tableName : Option String) (raw : List (String × RawAttr)) :
    Except AppError DynamoDB :=
  match tableName, validateItem raw with
  | some t, some item =>
      if t = db.tableName then
        if item.any isEmptyKeyAttr then
          .error .validationException
        else
          .ok ⟨db.tableName, db.rows ++ [item]⟩
      else
        .error (.resourceNotFound t)
  | tn, _ => .error (.paramValidation (tableNameErrors tn ++ paramErrors raw))

/-- `write_message_to_table(message)` from `src/app.py`: read the table name
from the environment, build the five-attribute item (Python evaluates the
dict literal in order: `ID`, `Email`, `Message`, `Name`, `TTL`, so a missing
payload key raises in that order), and put it. `env` is
`os.environ.get('TABLE_NAME')`, `uuid` is `str(uuid.uuid4())`, `now` is
`int(time.time())`. -/
def write_message_to_table (db : DynamoDB) (env : Option String) (uuid : String)
    (now : Int) (message : Json) : Except AppError DynamoDB := do
  let table_name := env
  let email ← message.index "email"
  let msg ← message.index "message"
  let name ← message.index "name"
  put_item db table_name
    [("ID", .S (.str uuid)),
     ("Email", .S email),
     ("Message", .S msg),
     ("Name", .S name),
     ("TTL", .N (toString (now + 30 * 86400)))]

/-- The body extraction of `lambda_handler`:
`body = event['Records'][0]['body']`, followed by `json.loads`'s demand that
the body be text. -/
def decode_body (event : Json) : Except AppError String := do
  let records ← event.index "Records"
  let r0 ← records.first
  let body ← r0.index "body"
  body.asText

/-- The `try` block of `lambda_handler`: decode, parse with `loads`
(the `json.loads` collaborator), and write. -/
def lambda_handler_run (loads : String → Except AppError Json) (env : Option String)
    (db : DynamoDB) (uuid : String) (now : Int) (event : Json) :
    Except AppError DynamoDB := do
  let body ← decode_body event
  let message ← loads body
  write_message_to_table db env uuid now message

/-- The one error shape `lambda_handler` ever raises:
`raise RuntimeError(e)` wrapping the caught exception. -/
inductive HandlerError where
  | runtimeError : AppError → HandlerError

/-- `str(RuntimeError(e))` carries `str(e)`: the description the queue-style
caller sees is the underlying cause's description. -/
def HandlerError.message : HandlerError → String
  | .runtimeError e => e.describe

/-- What an invocation does at its boundary: return a value (the Python
handler returns `None`, i.e. `Json.null`, on success) or raise. -/
inductive Outcome where
  | returns : Json → Outcome
  | raises : HandlerError → Outcome

/-- Everything observable about one invocation: the outcome, the resulting
store, the log lines in order, and the metric names emitted. -/
structure HandlerResult where
  outcome : Outcome
  db : DynamoDB
  logs : List String
  metrics : List String

/-- `'Message written to Table: {}'.format(table_name)` renders a missing
environment variable as Python renders `None`. -/
def writtenLog : Option String → String
  | some t => "Message written to Table: " ++ t
  | none => "Message written to Table: None"

/-- `lambda_handler(event, context)` from `src/app.py`: log the received
event, run the try block; on success return `None` and count
`MessagesWritten`; on any exception log its description, count
`MessagesNotWritten`, and raise `RuntimeError(e)` — the store is whatever
the one `put_item` call left it. -/
def lambda_handler (loads : String → Except AppError Json) (env : Option String)
    (db : DynamoDB) (uuid : String) (now : Int) (event : Json) : HandlerResult :=
  match lambda_handler_run loads env db uuid now event with
  | .ok db' =>
      ⟨.returns .null, db', ["Received event", writtenLog env], ["MessagesWritten"]⟩
  | .error e =>
      ⟨.raises (.runtimeError e), db, ["Received event", e.describe], ["MessagesNotWritten"]⟩

/-- The five-attribute row a successful write stores. -/
def storedRow (uuid email msg name : String) (now : Int) : List (String × AttrValue) :=
  [("ID", .S uuid),
   ("Email", .S email),
   ("Message", .S msg),
   ("Name", .S name),
   ("TTL", .N (toString (now + 30 * 86400)))]

/-- A valid decoded payload (the fixture of `src/tests/unit/test_handler.py`). -/
def testMessage : Json :=
  Json.obj [("name", Json.str "test-name"), ("email", Json.str "test-at-gmail.com"),
            ("message", Json.str "test-message")]

/-- A concrete `json.loads` collaborator: the fixture body text parses to
`testMessage`; any other text is not well-formed JSON. -/
def testLoads : String → Except AppError Json := fun s =>
  if s = "payload-1" then .ok testMessage
  else .error (.parseError "Expecting value: line 1 column 1 (char 0)")

/-- The first queue record of the test fixture event. -/
def testRecord : Json := Json.obj [("body", Json.str "payload-1")]

/-- The second queue record of the test fixture event (its body is not JSON). -/
def testRecord2 : Json := Json.obj [("body", Json.str "Test message.")]

/-- The two-record queue event of `src/tests/unit/test_handler.py`. -/
def testEvent : Json := Json.obj [("Records", Json.arr [testRecord, testRecord2])]

/-- The same event with only its first record. -/
def testEventSingle : Json := Json.obj [("Records", Json.arr [testRecord])]

/-- A queue event whose only record carries the non-JSON body. -/
def testEventBad : Json := Json.obj [("Records", Json.arr [testRecord2])]

/-- A healthy, empty table named as the tests name it. -/
def testDB : DynamoDB := ⟨"test-table", []⟩

/-- The payload of `test_handles_validation_error_when_email_value_is_not_of_valid_type`:
all three fields are strings, but `email` is empty. -/
def emptyEmailMessage : Json :=
  Json.obj [("name", Json.str "test"), ("email", Json.str ""),
            ("message", Json.str "test-message")]

/-- A `json.loads` collaborator parsing the fixture body to the
empty-email payload. -/
def emptyEmailLoads : String → Except AppError Json := fun _ => .ok emptyEmailMessage

/-- A payload in which `name` is present but is a number, and nothing else
is present. -/
def nameOnlyMessage : Json := Json.obj [("name", Json.num 123456)]

/-- A `json.loads` collaborator parsing the fixture body to the
number-name-only payload. -/
def nameOnlyLoads : String → Except AppError Json := fun _ => .ok nameOnlyMessage

/-- Whether an error is a parameter-validation failure that names the
`Name` attribute (the path `Item.Name.S`) as type-invalid. -/
def namesNameField : AppError → Prop
  | .paramValidation errs => ∃ v, ("Item.Name.S", v) ∈ errs
  | _ => False

/-- Success characterisation of `write_message_to_table`: the write returns
normally exactly when the three payload fields are present as strings, the
environment names the existing table, and neither key attribute (`ID`,
`Email`) is the empty string — and then exactly the one five-attribute row
is appended. -/
theorem write_ok_iff (db : DynamoDB) (env : Option String) (uuid : String) (now : Int)
    (message : Json) (db' : DynamoDB) :
    write_message_to_table db env uuid now message = .ok db' ↔
      ∃ e s n, message.index "email" = .ok (.str e) ∧
        message.index "message" = .ok (.str s) ∧
        message.index "name" = .ok (.str n) ∧
        env = some db.tableName ∧ uuid ≠ "" ∧ e ≠ "" ∧
        db' = ⟨db.tableName, db.rows ++ [storedRow uuid e s n now]⟩ := by
  constructor
  · intro h
    unfold write_message_to_table at h
    cases he : message.index "email" with
    | error err => rw [he] at h; simp [bind, Except.bind] at h
    | ok ev =>
      rw [he] at h
      cases hs : message.index "message" with
      | error err => rw [hs] at h; simp [bind, Except.bind] at h
      | ok sv =>
        rw [hs] at h
        cases hn : message.index "name" with
        | error err => rw [hn] at h; simp [bind, Except.bind] at h
        | ok nv =>
          rw [hn] at h
          simp only [bind, Except.bind] at h
          cases env with
          | none => simp [put_item] at h
          | some t =>
            cases ev <;> cases sv <;> cases nv <;>
              simp [put_item, validateItem, RawAttr.validate] at h
            rename_i e s n
            refine ⟨e, s, n, rfl, rfl, rfl, ?_⟩
            by_cases ht : t = db.tableName
            · subst ht
              simp [isEmptyKeyAttr] at h
              by_cases hu : uuid = ""
              · simp [hu] at h
              · by_cases hemail : e = ""
                · simp [hu, hemail] at h
                · simp [hu, hemail] at h
                  exact ⟨rfl, hu, hemail, h.symm ▸ by simp [storedRow]⟩
            · simp [ht] at h
  · rintro ⟨e, s, n, he, hs, hn, henv, hu, hemail, hdb⟩
    subst henv hdb
    unfold write_message_to_table
    rw [he, hs, hn]
    simp only [bind, Except.bind]
    simp [put_item, validateItem, RawAttr.validate, isEmptyKeyAttr, hu, hemail, storedRow]

/-- Success characterisation of the handler pipeline: the try block returns
normally exactly when decoding, parsing and the write all succeed, and then
the store gains exactly the one five-attribute row. -/
theorem run_ok_iff (loads : String → Except AppError Json) (env : Option String)
    (db : DynamoDB) (uuid : String) (now : Int) (event : Json) (db' : DynamoDB) :
    lambda_handler_run loads env db uuid now event = .ok db' ↔
      ∃ b m e s n, decode_body event = .ok b ∧ loads b = .ok m ∧
        m.index "email" = .ok (.str e) ∧ m.index "message" = .ok (.str s) ∧
        m.index "name" = .ok (.str n) ∧
        env = some db.tableName ∧ uuid ≠ "" ∧ e ≠ "" ∧
        db' = ⟨db.tableName, db.rows ++ [storedRow uuid e s n now]⟩ := by
  constructor
  · intro h
    unfold lambda_handler_run at h
    cases hb : decode_body event with
    | error err => rw [hb] at h; simp [bind, Except.bind] at h
    | ok b =>
      rw [hb] at h
      simp only [bind, Except.bind] at h
      cases hm : loads b with
      | error err => rw [hm] at h; simp at h
      | ok m =>
        rw [hm] at h
        rcases (write_ok_iff db env uuid now m db').mp h with
          ⟨e, s, n, h1, h2, h3, h4, h5, h6, h7⟩
        exact ⟨b, m, e, s, n, rfl, hm, h1, h2, h3, h4, h5, h6, h7⟩
  · rintro ⟨b, m, e, s, n, hb, hm, h1, h2, h3, h4, h5, h6, h7⟩
    unfold lambda_handler_run
    rw [hb]
    simp only [bind, Except.bind]
    rw [hm]
    exact (write_ok_iff db env uuid now m db').mpr ⟨e, s, n, h1, h2, h3, h4, h5, h6, h7⟩

/-- **C1.** Round-trip field fidelity: whenever the decoded payload has
string fields `name`, `email` and `message` and the invocation succeeds,
the stored row's `Name`, `Email` and `Message` attributes are exactly those
strings, untransformed. -/
theorem roundtrip_field_fidelity
    (loads : String → Except AppError Json) (env : Option String) (db : DynamoDB)
    (uuid : String) (now : Int) (event : Json) (b : String) (m : Json)
    (n e s : String) (db' : DynamoDB)
    (hb : decode_body event = .ok b) (hm : loads b = .ok m)
    (hn : m.index "name" = .ok (.str n))
    (he : m.index "email" = .ok (.str e))
    (hs : m.index "message" = .ok (.str s))
    (hok : lambda_handler_run loads env db uuid now event = .ok db') :
    ∃ row : Item, db'.rows = db.rows ++ [row] ∧
      row.lookup "Name" = some (.S n) ∧
      row.lookup "Email" = some (.S e) ∧
      row.lookup "Message" = some (.S s) := by
  rcases (run_ok_iff loads env db uuid now event db').mp hok with
    ⟨b', m', e', s', n', hb', hm', he', hs', hn', _, _, _, hdb⟩
  rw [hb] at hb'
  injection hb' with hbb
  subst hbb
  rw [hm] at hm'
  injection hm' with hmm
  subst hmm
  rw [he] at he'
  injection he' with hee
  injection hee with hee2
  subst hee2
  rw [hs] at hs'
  injection hs' with hss
  injection hss with hss2
  subst hss2
  rw [hn] at hn'
  injection hn' with hnn
  injection hnn with hnn2
  subst hnn2
  subst hdb
  exact ⟨storedRow uuid e s n now, rfl, rfl, rfl, rfl⟩

/-- Witness for C1 at the concrete test fixtures. -/
theorem roundtrip_field_fidelity_witness :
    ∃ db' : DynamoDB,
      lambda_handler_run testLoads (some "test-table") testDB "id-1" 1700000000 testEvent
        = .ok db' ∧
      ∃ row : Item, db'.rows = testDB.rows ++ [row] ∧
        row.lookup "Name" = some (.S "test-name") ∧
        row.lookup "Email" = some (.S "test-at-gmail.com") ∧
        row.lookup "Message" = some (.S "test-message") := by
  refine ⟨⟨"test-table",
    [storedRow "id-1" "test-at-gmail.com" "test-message" "test-name" 1700000000]⟩, rfl, ?_⟩
  exact roundtrip_field_fidelity testLoads (some "test-table") testDB "id-1" 1700000000
    testEvent "payload-1" testMessage "test-name" "test-at-gmail.com" "test-message"
    _ rfl rfl rfl rfl rfl rfl

/-- **C2.** Expiry computation: a successful write performed at wall-clock
time `now` (seconds since epoch, as an integer) stores an expiry attribute
`TTL` equal to exactly `now + 2592000` (30 days). -/
theorem expiry_computation
    (loads : String → Except AppError Json) (env : Option String) (db : DynamoDB)
    (uuid : String) (now : Int) (event : Json) (db' : DynamoDB)
    (hok : lambda_handler_run loads env db uuid now event = .ok db') :
    ∃ row : Item, db'.rows = db.rows ++ [row] ∧
      row.lookup "TTL" = some (.N (toString (now + 2592000))) := by
  rcases (run_ok_iff loads env db uuid now event db').mp hok with
    ⟨b, m, e, s, n, _, _, _, _, _, _, _, _, hdb⟩
  subst hdb
  refine ⟨storedRow uuid e s n now, rfl, ?_⟩
  have h30 : (30 * 86400 : Int) = 2592000 := by norm_num
  simp [storedRow, List.lookup, h30]

/-- Witness for C2 at the concrete test fixtures. -/
theorem expiry_computation_witness :
    ∃ db' : DynamoDB,
      lambda_handler_run testLoads (some "test-table") testDB "id-1" 1700000000 testEvent
        = .ok db' ∧
      ∃ row : Item, db'.rows = testDB.rows ++ [row] ∧
        row.lookup "TTL" = some (.N (toString ((1700000000 : Int) + 2592000))) := by
  refine ⟨⟨"test-table",
    [storedRow "id-1" "test-at-gmail.com" "test-message" "test-name" 1700000000]⟩, rfl, ?_⟩
  exact expiry_computation testLoads (some "test-table") testDB "id-1" 1700000000
    testEvent _ rfl

/-- **C3.** Write atomicity: an invocation either succeeds and appends
exactly one row to the store, or fails (raising) and leaves the store
exactly as it was — on every failure path. -/
theorem write_atomicity
    (loads : String → Except AppError Json) (env : Option String) (db : DynamoDB)
    (uuid : String) (now : Int) (event : Json) :
    (∃ item : Item,
        (lambda_handler loads env db uuid now event).db.rows = db.rows ++ [item] ∧
        (lambda_handler loads env db uuid now event).outcome = .returns .null) ∨
    ((lambda_handler loads env db uuid now event).db = db ∧
      ∃ err, (lambda_handler loads env db uuid now event).outcome = .raises err) := by
  unfold lambda_handler
  cases h : lambda_handler_run loads env db uuid now event with
  | ok db' =>
    left
    rcases (run_ok_iff loads env db uuid now event db').mp h with
      ⟨b, m, e, s, n, _, _, _, _, _, _, _, _, hdb⟩
    subst hdb
    exact ⟨storedRow uuid e s n now, rfl, rfl⟩
  | error e =>
    right
    exact ⟨rfl, .runtimeError e, rfl⟩

/-- **C10.** The stored attribute set is closed: a successful invocation
appends a row consisting of exactly the five attributes `ID`, `Email`,
`Message`, `Name`, `TTL`; and the write depends on the payload only through
its `email`, `message` and `name` fields, so any additional payload fields
are dropped and never persisted. -/
theorem stored_row_attr_set_closed
    (loads : String → Except AppError Json) (env : Option String) (db : DynamoDB)
    (uuid : String) (now : Int) (event : Json) :
    (∀ db', lambda_handler_run loads env db uuid now event = .ok db' →
      ∃ e s n, db'.rows = db.rows ++ [storedRow uuid e s n now] ∧
        (storedRow uuid e s n now).map Prod.fst
          = ["ID", "Email", "Message", "Name", "TTL"]) ∧
    (∀ m1 m2 : Json,
      m1.index "email" = m2.index "email" →
      m1.index "message" = m2.index "message" →
      m1.index "name" = m2.index "name" →
      write_message_to_table db env uuid now m1
        = write_message_to_table db env uuid now m2) := by
  constructor
  · intro db' hok
    rcases (run_ok_iff loads env db uuid now event db').mp hok with
      ⟨b, m, e, s, n, _, _, _, _, _, _, _, _, hdb⟩
    subst hdb
    exact ⟨e, s, n, rfl, rfl⟩
  · intro m1 m2 he hs hn
    unfold write_message_to_table
    rw [he, hs, hn]

/-- Witness for C10: the concrete successful invocation stores the closed
five-attribute row, and a payload carrying an extra field writes exactly
what the payload without it writes. -/
theorem stored_row_attr_set_closed_witness :
    (∃ e s n,
      (⟨"test-table",
        [storedRow "id-1" "test-at-gmail.com" "test-message" "test-name" 1700000000]⟩
          : DynamoDB).rows
        = testDB.rows ++ [storedRow "id-1" e s n 1700000000] ∧
      (storedRow "id-1" e s n 1700000000).map Prod.fst
        = ["ID", "Email", "Message", "Name", "TTL"]) ∧
    write_message_to_table testDB (some "test-table") "id-1" 1700000000
        (Json.obj [("name", Json.str "test-name"), ("email", Json.str "test-at-gmail.com"),
                   ("message", Json.str "test-message"), ("extra", Json.str "dropped")])
      = write_message_to_table testDB (some "test-table") "id-1" 1700000000 testMessage := by
  have h := stored_row_attr_set_closed testLoads (some "test-table") testDB "id-1"
    1700000000 testEvent
  refine ⟨h.1 ⟨"test-table",
    [storedRow "id-1" "test-at-gmail.com" "test-message" "test-name" 1700000000]⟩ rfl,
    h.2 _ testMessage rfl rfl rfl⟩

/-- Decoding an event whose records list starts with `r` reads `r`'s `body`
and nothing else. -/
theorem decode_body_records (event r : Json) (rest : List Json)
    (h : event.index "Records" = .ok (.arr (r :: rest))) :
    decode_body event = Except.bind (r.index "body") Json.asText := by
  unfold decode_body
  rw [h]
  simp [bind, Except.bind, Json.first]

/-- **C6.** Queue-style decoding processes only the first record: the raw
payload is the first record's `body`, and two events sharing a first record
— whatever the records beyond it — produce identical invocations (same
outcome, same store, same logs, same metrics). -/
theorem first_record_only
    (loads : String → Except AppError Json) (env : Option String) (db : DynamoDB)
    (uuid : String) (now : Int) (ev1 ev2 r : Json) (rest1 rest2 : List Json)
    (h1 : ev1.index "Records" = .ok (.arr (r :: rest1)))
    (h2 : ev2.index "Records" = .ok (.arr (r :: rest2))) :
    decode_body ev1 = Except.bind (r.index "body") Json.asText ∧
    lambda_handler loads env db uuid now ev1 = lambda_handler loads env db uuid now ev2 := by
  have d1 := decode_body_records ev1 r rest1 h1
  have d2 := decode_body_records ev2 r rest2 h2
  refine ⟨d1, ?_⟩
  unfold lambda_handler lambda_handler_run
  rw [d1, d2]

/-- Witness for C6: the two-record fixture event behaves exactly as the
event holding only its first record; the second record is ignored. -/
theorem first_record_only_witness :
    decode_body testEvent = Except.bind (testRecord.index "body") Json.asText ∧
    lambda_handler testLoads (some "test-table") testDB "id-1" 1700000000 testEvent
      = lambda_handler testLoads (some "test-table") testDB "id-1" 1700000000
          testEventSingle := by
  exact first_record_only testLoads (some "test-table") testDB "id-1" 1700000000
    testEvent testEventSingle testRecord [testRecord2] [] rfl rfl

/-- **C7.** Unified failure propagation: whatever error `e` any stage of the
try block produces, the handler logs the received event followed by `e`'s
description, raises the single failure `RuntimeError e` whose message is
exactly the underlying cause's description, and leaves the store unchanged
— no error kind is retried or recovered, and all kinds surface the same way. -/
theorem unified_failure_propagation
    (loads : String → Except AppError Json) (env : Option String) (db : DynamoDB)
    (uuid : String) (now : Int) (event : Json) (err : AppError)
    (he : lambda_handler_run loads env db uuid now event = .error err) :
    (lambda_handler loads env db uuid now event).outcome = .raises (.runtimeError err) ∧
    (lambda_handler loads env db uuid now event).logs = ["Received event", err.describe] ∧
    HandlerError.message (.runtimeError err) = err.describe ∧
    (lambda_handler loads env db uuid now event).metrics = ["MessagesNotWritten"] ∧
    (lambda_handler loads env db uuid now event).db = db := by
  unfold lambda_handler
  rw [he]
  exact ⟨rfl, rfl, rfl, rfl, rfl⟩

/-- Witness for C7 at a concrete parse failure (the fixture's second record
body is not JSON). -/
theorem unified_failure_propagation_witness :
    (lambda_handler testLoads (some "test-table") testDB "id-1" 1700000000
        testEventBad).outcome
      = .raises (.runtimeError
          (.parseError "Expecting value: line 1 column 1 (char 0)")) ∧
    (lambda_handler testLoads (some "test-table") testDB "id-1" 1700000000
        testEventBad).logs
      = ["Received event",
         AppError.describe (.parseError "Expecting value: line 1 column 1 (char 0)")] ∧
    (lambda_handler testLoads (some "test-table") testDB "id-1" 1700000000
        testEventBad).db = testDB := by
  have h := unified_failure_propagation testLoads (some "test-table") testDB "id-1"
    1700000000 testEventBad (.parseError "Expecting value: line 1 column 1 (char 0)") rfl
  exact ⟨h.1, h.2.1, h.2.2.2.2⟩

/-- **C4, counterexample.** An event carrying `body` at its top level (the
direct-invocation shape) is not decoded: the handler looks up `Records`,
fails with its missing-key error, raises, and persists nothing — even with
a healthy table and a payload that would otherwise be valid. -/
theorem direct_invocation_cex :
    decode_body (Json.obj [("body", Json.str "payload-1")])
      = .error (.keyError "Records") ∧
    (lambda_handler testLoads (some "test-table") testDB "id-1" 1700000000
        (Json.obj [("body", Json.str "payload-1")])).outcome
      = .raises (.runtimeError (.keyError "Records")) ∧
    (lambda_handler testLoads (some "test-table") testDB "id-1" 1700000000
        (Json.obj [("body", Json.str "payload-1")])).db.rows = [] := by
  exact ⟨rfl, rfl, rfl⟩

/-- **C4, amended.** The decoder reads only `Records[0].body`: an event
whose top level has a `body` field but no records list fails with the
missing-`Records` key error; the invocation raises and stores nothing
rather than proceeding to parse and persist. -/
theorem direct_invocation_decoding (fields : List (String × Json)) (s : String)
    (_hbody : fields.lookup "body" = some (Json.str s))
    (hnorec : fields.lookup "Records" = none) :
    decode_body (Json.obj fields) = .error (.keyError "Records") ∧
    ∀ (loads : String → Except AppError Json) (env : Option String) (db : DynamoDB)
      (uuid : String) (now : Int),
      (lambda_handler loads env db uuid now (Json.obj fields)).outcome
        = .raises (.runtimeError (.keyError "Records")) ∧
      (lambda_handler loads env db uuid now (Json.obj fields)).db = db := by
  have hdec : decode_body (Json.obj fields) = .error (.keyError "Records") := by
    unfold decode_body
    simp [Json.index, hnorec, bind, Except.bind]
  refine ⟨hdec, ?_⟩
  intro loads env db uuid now
  have hrun : lambda_handler_run loads env db uuid now (Json.obj fields)
      = .error (.keyError "Records") := by
    unfold lambda_handler_run
    rw [hdec]
    rfl
  unfold lambda_handler
  rw [hrun]
  exact ⟨rfl, rfl⟩

/-- Witness for the amended C4 at the concrete direct-style event. -/
theorem direct_invocation_decoding_witness :
    decode_body (Json.obj [("body", Json.str "payload-1")])
      = .error (.keyError "Records") ∧
    (lambda_handler testLoads (some "test-table") testDB "id-2" 1700000000
        (Json.obj [("body", Json.str "payload-1")])).db = testDB := by
  have h := direct_invocation_decoding [("body", Json.str "payload-1")] "payload-1" rfl rfl
  exact ⟨h.1, (h.2 testLoads (some "test-table") testDB "id-2" 1700000000).2⟩

/-- **C5, counterexample.** A successful invocation returns `None`
(no status-code response object), and a failing invocation raises rather
than returning a 500-style object: at the concrete fixtures the success
outcome is `returns null`, `null` is not the claimed 200 object, and the
failure outcome is a raise. -/
theorem outbound_result_cex :
    (lambda_handler testLoads (some "test-table") testDB "id-1" 1700000000
        testEvent).outcome = .returns Json.null ∧
    Json.null ≠ Json.obj
      [("statusCode", Json.num 200),
       ("body", Json.str "\x7b\"message\": \"success\"\x7d")] ∧
    (lambda_handler testLoads (some "test-table") testDB "id-1" 1700000000
        testEventBad).outcome
      = .raises (.runtimeError
          (.parseError "Expecting value: line 1 column 1 (char 0)")) := by
  exact ⟨rfl, fun h => Json.noConfusion h, rfl⟩

/-- **C5, amended.** The handler's only outbound results are: return `None`
on success, or raise a `RuntimeError` wrapping the underlying error on
failure — it never returns a status-code/body response object in either
style. -/
theorem outbound_result
    (loads : String → Except AppError Json) (env : Option String) (db : DynamoDB)
    (uuid : String) (now : Int) (event : Json) :
    (lambda_handler loads env db uuid now event).outcome = .returns Json.null ∨
    ∃ err, (lambda_handler loads env db uuid now event).outcome
      = .raises (.runtimeError err) := by
  unfold lambda_handler
  cases lambda_handler_run loads env db uuid now event with
  | ok db' => left; rfl
  | error e => right; exact ⟨e, rfl⟩

/-- **C8, counterexample.** String-typed is not sufficient: the payload of
`test_handles_validation_error_when_email_value_is_not_of_valid_type` has
all three fields present as strings (`email` is the empty string), the
table is healthy and existing, yet the invocation fails — the backend
rejects an empty string in the key attribute `Email` — and stores nothing. -/
theorem string_typed_sufficient_cex :
    (lambda_handler emptyEmailLoads (some "test-table") testDB "id-1" 1700000000
        testEvent).outcome
      = .raises (.runtimeError .validationException) ∧
    (lambda_handler emptyEmailLoads (some "test-table") testDB "id-1" 1700000000
        testEvent).db.rows = [] := by
  exact ⟨rfl, rfl⟩

/-- **C8, amended.** Presence and string-typing of all three fields passes
validation, and the invocation against a healthy, existing table then
succeeds — provided additionally that `email` is not the empty string
(it is the table's range key, and the backend rejects empty key attribute
values; the generated row identifier, a rendered UUID, is never empty). -/
theorem string_typed_sufficient
    (loads : String → Except AppError Json) (env : Option String) (db : DynamoDB)
    (uuid : String) (now : Int) (event : Json) (b : String) (m : Json)
    (n e s : String)
    (hb : decode_body event = .ok b) (hm : loads b = .ok m)
    (hn : m.index "name" = .ok (.str n))
    (he : m.index "email" = .ok (.str e))
    (hs : m.index "message" = .ok (.str s))
    (henv : env = some db.tableName) (hu : uuid ≠ "") (hemail : e ≠ "") :
    (lambda_handler loads env db uuid now event).outcome = .returns Json.null := by
  have hrun : lambda_handler_run loads env db uuid now event
      = .ok ⟨db.tableName, db.rows ++ [storedRow uuid e s n now]⟩ :=
    (run_ok_iff loads env db uuid now event _).mpr
      ⟨b, m, e, s, n, hb, hm, he, hs, hn, henv, hu, hemail, rfl⟩
  unfold lambda_handler
  rw [hrun]

/-- Witness for the amended C8 at the concrete fixtures. -/
theorem string_typed_sufficient_witness :
    (lambda_handler testLoads (some "test-table") testDB "id-1" 1700000000
        testEvent).outcome = .returns Json.null := by
  exact string_typed_sufficient testLoads (some "test-table") testDB "id-1" 1700000000
    testEvent "payload-1" testMessage "test-name" "test-at-gmail.com" "test-message"
    rfl rfl rfl rfl rfl rfl (by simp) (by simp)

/-- **C9, counterexample.** Not every payload with a numeric `name` fails
with a validation error naming `name`: the payload holding only
`name = 123456` fails earlier, with the missing-key error for `email`,
which is no parameter-validation report and names no types. -/
theorem wrong_type_failure_cex :
    lambda_handler_run nameOnlyLoads (some "test-table") testDB "id-1" 1700000000
        testEvent
      = .error (.keyError "email") ∧
    ¬ namesNameField (.keyError "email") := by
  exact ⟨rfl, fun h => h⟩

/-- **C9, amended.** For every payload whose `name` field is a number and
whose `email` and `message` fields are present, the invocation fails with
the client's parameter-validation error, whose report names the `Name`
attribute (path `Item.Name.S`) carrying the offending numeric value — of
Python type `int` where `str` is expected — and no row is written. -/
theorem wrong_type_failure
    (loads : String → Except AppError Json) (env : Option String) (db : DynamoDB)
    (uuid : String) (now : Int) (event : Json) (b : String) (m : Json)
    (k : Int) (ev sv : Json)
    (hb : decode_body event = .ok b) (hm : loads b = .ok m)
    (hn : m.index "name" = .ok (.num k))
    (he : m.index "email" = .ok ev)
    (hs : m.index "message" = .ok sv) :
    ∃ errs, lambda_handler_run loads env db uuid now event
        = .error (.paramValidation errs) ∧
      ("Item.Name.S", Json.num k) ∈ errs ∧
      (Json.num k).typeName = "int" ∧
      namesNameField (.paramValidation errs) ∧
      (lambda_handler loads env db uuid now event).db = db := by
  have hnone : validateItem
      [("ID", .S (.str uuid)), ("Email", .S ev), ("Message", .S sv),
       ("Name", .S (.num k)), ("TTL", .N (toString (now + 30 * 86400)))] = none := by
    cases ev <;> cases sv <;> simp [validateItem, RawAttr.validate]
  have hmem : ("Item.Name.S", Json.num k) ∈ paramErrors
      [("ID", .S (.str uuid)), ("Email", .S ev), ("Message", .S sv),
       ("Name", .S (.num k)), ("TTL", .N (toString (now + 30 * 86400)))] := by
    cases ev <;> cases sv <;> simp [paramErrors, RawAttr.validate]
  have hrun : lambda_handler_run loads env db uuid now event
      = .error (.paramValidation (tableNameErrors env ++ paramErrors
          [("ID", .S (.str uuid)), ("Email", .S ev), ("Message", .S sv),
           ("Name", .S (.num k)), ("TTL", .N (toString (now + 30 * 86400)))])) := by
    unfold lambda_handler_run
    rw [hb]
    simp only [bind, Except.bind]
    rw [hm]
    show write_message_to_table db env uuid now m = _
    unfold write_message_to_table
    rw [he, hs, hn]
    simp only [bind, Except.bind]
    have h2592 : (30 * 86400 : Int) = 2592000 := by norm_num
    rw [h2592] at hnone
    cases env <;> simp [put_item, hnone]
  refine ⟨_, hrun, ?_, rfl, ?_, ?_⟩
  · exact List.mem_append.mpr (Or.inr hmem)
  · exact ⟨Json.num k, List.mem_append.mpr (Or.inr hmem)⟩
  · unfold lambda_handler
    rw [hrun]

/-- Witness for the amended C9 at the payload of
`test_logs_info_request_and_error_when_parameter_is_of_wrong_type`. -/
theorem wrong_type_failure_witness :
    ∃ errs, lambda_handler_run
        (fun _ => .ok (Json.obj
          [("name", Json.num 123456), ("message", Json.str "test"),
           ("email", Json.str "test-at-gmail.com")]))
        (some "test-table") testDB "id-1" 1700000000 testEvent
        = .error (.paramValidation errs) ∧
      ("Item.Name.S", Json.num 123456) ∈ errs ∧
      (lambda_handler
        (fun _ => .ok (Json.obj
          [("name", Json.num 123456), ("message", Json.str "test"),
           ("email", Json.str "test-at-gmail.com")]))
        (some "test-table") testDB "id-1" 1700000000 testEvent).db = testDB := by
  have h := wrong_type_failure
    (fun _ => .ok (Json.obj
      [("name", Json.num 123456), ("message", Json.str "test"),
       ("email", Json.str "test-at-gmail.com")]))
    (some "test-table") testDB "id-1" 1700000000 testEvent "payload-1"
    (Json.obj [("name", Json.num 123456), ("message", Json.str "test"),
               ("email", Json.str "test-at-gmail.com")])
    123456 (Json.str "test-at-gmail.com") (Json.str "test")
    rfl rfl rfl rfl rfl
  rcases h with ⟨errs, h1, h2, _, _, h5⟩
  exact ⟨errs, h1, h2, h5⟩
